import Mathlib

/-!
Verification of the streaming-pager engine of `pypager` against its
specification.  The Python sources are shallowly embedded: Python `str`
values that are scanned character by character are modelled as `List Char`,
status-message strings as `String`, Python `int` as `Int`, and the mutable
objects (sources, the source registry, the per-source view state, the
prefetch scheduler) as explicit state records with pure transition
functions.  Thread interleavings of the prefetch machinery are modelled as
traces of atomic events consumed by a step function.
-/

/-- A styled text fragment `(style, text)` as produced by `Source.read_chunk`
(`prompt_toolkit` `StyleAndTextTuples`); the text is a character list. -/
abbrev Fragment := String × List Char

/-- The concatenated character content of a fragment list. -/
def fragChars (l : List Fragment) : List Char :=
  (l.map (fun f => f.2)).flatten

/-- `prompt_toolkit.layout.utils.explode_text_fragments`: split every
fragment into one fragment per character, keeping the style. -/
def explode_text_fragments (l : List Fragment) : List Fragment :=
  l.flatMap (fun f => f.2.map (fun c => (f.1, [c])))

theorem flatten_map_singleton (txt : List Char) :
    (txt.map (fun c => [c])).flatten = txt := by
  induction txt with
  | nil => rfl
  | cons c cs ih => simp [ih]

theorem fragChars_explode (l : List Fragment) :
    fragChars (explode_text_fragments l) = fragChars l := by
  induction l with
  | nil => rfl
  | cons f fs ih =>
    simp only [explode_text_fragments, fragChars, List.flatMap_cons, List.map_append,
      List.flatten_append, List.map_map] at *
    rw [show ((fun f : Fragment => f.2) ∘ fun c => (f.1, [c])) = fun c : Char => [c] from rfl]
    rw [flatten_map_singleton, ih]
    simp

/-- `StringSource` (src/pypager/source/__init__.py): a one-shot source fed
by a Python string. -/
structure StringSource where
  text : List Char
  name : String
  rdFlag : Bool

/-- `StringSource.__init__`: the `_read` flag starts `False`. -/
def StringSource.init (text : List Char) (name : String) : StringSource :=
  { text := text, name := name, rdFlag := false }

/-- `StringSource.eof`. -/
def StringSource.eof (s : StringSource) : Bool := s.rdFlag

/-- `StringSource.read_chunk`: first call explodes the whole text and sets
`_read`; later calls return the empty list. -/
def StringSource.read_chunk (s : StringSource) : List Fragment × StringSource :=
  if s.rdFlag then ([], s)
  else (explode_text_fragments [("", s.text)], { s with rdFlag := true })

/-- `FormattedTextSource` (src/pypager/source/__init__.py): a one-shot
source fed by an already-formatted fragment list. -/
structure FormattedTextSource where
  formatted_text : List Fragment
  name : String
  rdFlag : Bool

/-- `FormattedTextSource.__init__`. -/
def FormattedTextSource.init (ft : List Fragment) (name : String) : FormattedTextSource :=
  { formatted_text := ft, name := name, rdFlag := false }

/-- `FormattedTextSource.eof`. -/
def FormattedTextSource.eof (s : FormattedTextSource) : Bool := s.rdFlag

/-- `FormattedTextSource.read_chunk`. -/
def FormattedTextSource.read_chunk (s : FormattedTextSource) :
    List Fragment × FormattedTextSource :=
  if s.rdFlag then ([], s)
  else (explode_text_fragments s.formatted_text, { s with rdFlag := true })

example : (StringSource.init ['a', 'b'] "x").eof = false := by decide
example : fragChars ((StringSource.init ['a', '\n'] "x").read_chunk).1 = ['a', '\n'] := by decide

/-- Python dictionary assignment `d[k] = v` on an association list (replace
in place, or append a new entry). -/
def dict_set [DecidableEq κ] (d : List (κ × α)) (k : κ) (v : α) : List (κ × α) :=
  match d with
  | [] => [(k, v)]
  | (k0, v0) :: rest => if k0 = k then (k, v) :: rest else (k0, v0) :: dict_set rest k v

/-- Python dictionary lookup `d[k]`, `none` standing for `KeyError`. -/
def dict_get [DecidableEq κ] (d : List (κ × α)) (k : κ) : Option α :=
  match d with
  | [] => none
  | (k0, v0) :: rest => if k0 = k then some v0 else dict_get rest k

/-- Python `list.remove(x)`: drop the first element equal to `x` (identity
equality for the `Source` objects, modelled by distinct numeric ids). -/
def list_remove [DecidableEq α] (l : List α) (x : α) : List α :=
  match l with
  | [] => []
  | a :: rest => if a = x then rest else a :: list_remove rest x

/-- Python list indexing `l[i]` with an `int` index: nonnegative indices
from the front, negative indices from the back, `none` for `IndexError`. -/
def py_get (l : List α) (i : Int) : Option α :=
  if 0 ≤ i then l.get? i.toNat
  else if 0 ≤ i + l.length then l.get? (i + l.length).toNat
  else none

/-- A reference to a content provider: either a real `Source` held in the
registry (identified by its object identity) or the shared `DummySource`. -/
inductive SrcRef where
  | real : Nat → SrcRef
  | dummy : SrcRef
deriving DecidableEq

/-- `SourceInfo` (src/pypager/source/source_info.py): per-source pager
state.  `bufText`/`cursor_position` model the read-only
`prompt_toolkit.buffer.Buffer`, `vertical_scroll` the window attribute used
by the mark commands. -/
structure SourceInfo where
  source : SrcRef
  bufText : List Char
  cursor_position : Nat
  vertical_scroll : Nat
  marks : List (String × (Nat × Nat))
  waiting_for_input_stream : Bool
  wrap_lines : Bool
deriving DecidableEq

/-- `SourceInfo.__init__`: empty buffer, no marks, not waiting, no wrap. -/
def SourceInfo.init (src : SrcRef) : SourceInfo :=
  { source := src, bufText := [], cursor_position := 0, vertical_scroll := 0,
    marks := [], waiting_for_input_stream := false, wrap_lines := false }

/-- `SourceContainer` (src/pypager/source/sourcecontainer.py): the source
registry.  `messages` records the `on_message` calls in order. -/
structure SourceContainer where
  sources : List Nat
  current_source_index : Int
  source_info : List (Nat × SourceInfo)
  messages : List String
deriving DecidableEq

/-- `SourceContainer.current_source`: index into `sources`, falling back to
the dummy source on `IndexError`. -/
def SourceContainer.current_source (r : SourceContainer) : SrcRef :=
  match py_get r.sources r.current_source_index with
  | some s => .real s
  | none => .dummy

/-- `SourceContainer.current_source_info`: look the current source up in
the `source_info` dictionary, constructing a fresh `SourceInfo` for it on
`KeyError`. -/
def SourceContainer.current_source_info (r : SourceContainer) : SourceInfo :=
  match r.current_source with
  | .real s =>
    match dict_get r.source_info s with
    | some info => info
    | none => SourceInfo.init (.real s)
  | .dummy => SourceInfo.init .dummy

/-- `SourceContainer.add_source`: store a fresh `SourceInfo`, append the
source, and make it current. -/
def SourceContainer.add_source (r : SourceContainer) (s : Nat) : SourceContainer :=
  { r with
    source_info := dict_set r.source_info s (SourceInfo.init (.real s)),
    sources := r.sources ++ [s],
    current_source_index := ((r.sources ++ [s]).length : Int) - 1 }

/-- `SourceContainer.focus_previous_source`: `(index - 1) % len(sources)`
with Python's nonnegative modulo. -/
def SourceContainer.focus_previous_source (r : SourceContainer) : SourceContainer :=
  { r with current_source_index :=
      (r.current_source_index - 1) % (r.sources.length : Int) }

/-- `SourceContainer.focus_next_source`. -/
def SourceContainer.focus_next_source (r : SourceContainer) : SourceContainer :=
  { r with current_source_index :=
      (r.current_source_index + 1) % (r.sources.length : Int) }

/-- The status message emitted by `remove_current_source` on the last
buffer (the apostrophe is spelled via its code point). -/
def cant_remove_msg : String :=
  "Can" ++ String.mk [Char.ofNat 39] ++ "t remove the last buffer."

/-- `SourceContainer.remove_current_source`: with more than one source,
remember the current source, focus the previous one, then delete the
remembered source from the list; otherwise emit a status message.  (When
the remembered reference is the dummy — an out-of-range index — Python's
`list.remove` would raise `ValueError`; no claim exercises that path, so
the list is returned unchanged there.) -/
def SourceContainer.remove_current_source (r : SourceContainer) : SourceContainer :=
  if r.sources.length > 1 then
    let cur := r.current_source
    let r2 := r.focus_previous_source
    { r2 with sources :=
        match cur with
        | .real s => list_remove r2.sources s
        | .dummy => r2.sources }
  else
    { r with messages := r.messages ++ [cant_remove_msg] }

/-- `SourceContainer.open_file`: `FileSource` construction is passed in as
an `Except` value; an `IOError` is converted to a status message, success
falls through to `add_source`.

Modelled from the spec (in part): `FileSource.__init__` lives in
src/pypager/source/pipe_source.py, which is not in the source tree; per
spec §4.1 the file variant "surfaces open failures (missing file,
permission denied) as a structured error at construction time", so the
construction attempt is modelled as an `Except String Nat` parameter whose
`error` carries the I/O error text. -/
def SourceContainer.open_file (r : SourceContainer) (ctor : Except String Nat) :
    SourceContainer :=
  match ctor with
  | .error e => { r with messages := r.messages ++ [e] }
  | .ok s => r.add_source s

/-- `SourceContainer._mark`: record `(cursor_position, vertical_scroll)`
under the pressed key's name in the current source's marks. -/
def SourceInfo.set_mark (si : SourceInfo) (name : String) : SourceInfo :=
  { si with marks := dict_set si.marks name (si.cursor_position, si.vertical_scroll) }

/-- `SourceContainer.go_to_mark`: `"^"` goes to the start, `"$"` to the end
of the buffer text; any other name is looked up in the marks dictionary,
and a `KeyError` (unset mark) is silently ignored. -/
def SourceInfo.go_to_mark (si : SourceInfo) (mark : String) : SourceInfo :=
  if mark = "^" then
    { si with cursor_position := 0, vertical_scroll := 0 }
  else if mark = "$" then
    { si with cursor_position := si.bufText.length, vertical_scroll := 0 }
  else
    match dict_get si.marks mark with
    | some cs => { si with cursor_position := cs.1, vertical_scroll := cs.2 }
    | none => si

example :
    (SourceContainer.remove_current_source ⟨[7], 0, [], []⟩).messages = [cant_remove_msg] := by
  decide
example :
    (SourceContainer.remove_current_source ⟨[1, 2], 0, [], []⟩).current_source_index = 1 := by
  decide
example : (SourceContainer.remove_current_source ⟨[1, 2], 0, [], []⟩).sources = [2] := by
  decide

/-- The viewport geometry handed to `_after_render` by the renderer
(`info.ui_content.line_count`, `info.last_visible_line()`,
`info.window_height`). -/
structure RenderInfo where
  line_count : Nat
  last_visible_line : Nat
  window_height : Nat
deriving DecidableEq

/-- `info.ui_content.line_count - info.last_visible_line()` — the number of
already-loaded lines below the bottom of the viewport (the spec's
"slack"). -/
def lines_below_bottom (i : RenderInfo) : Int :=
  (i.line_count : Int) - (i.last_visible_line : Int)

/-- The dispatch decision of `SourceContainer._after_render` /
`Pager._after_render`: given the `waiting_for_input_stream` flag, the
source's `eof()`, the render info (`none` when no render info is
available) and the `forward_forever` flag, return `some target` (the
initial value of the `lines` cell) when a worker read task is dispatched,
`none` otherwise. -/
def after_render_dispatch (waiting eofF : Bool) (info : Option RenderInfo)
    (forward_forever : Bool) : Option Int :=
  match info with
  | none => none
  | some i =>
    if waiting = false ∧ eofF = false then
      if lines_below_bottom i < (i.window_height : Int) * 2 ∨ forward_forever then
        some ((i.window_height : Int) * 2 - lines_below_bottom i)
      else none
    else none

/-- One worker thread running `receive_content_from_generator`; `lines` is
its private `lines[0]` cell. -/
structure Worker where
  lines : Int
deriving DecidableEq

/-- The state shared by the render loop and the worker threads for one
generator-backed source: the generator's remaining items, the source's
`_eof` flag, the current source info's `waiting_for_input_stream`, the
running worker tasks, the ordered `call_soon` handoff queue of pending
`insert_text` calls, the accumulated buffer text, plus two history
variables (the ordered log of chunks delivered to the render thread and
the number of worker tasks dispatched). -/
structure SchedState where
  gen : List (List Fragment)
  eofFlag : Bool
  waiting : Bool
  workers : List Worker
  queue : List (List Char)
  text : List Char
  delivered : List (List Char)
  dispatched : Nat
  forward_forever : Bool
deriving DecidableEq

/-- Atomic events of the interleaving semantics: a render tick on the main
loop (with the renderer's viewport info as an oracle input), one iteration
of worker `i`'s read loop (or its exit when the loop condition fails), and
the main loop running the next queued `insert_text` callback. -/
inductive Ev where
  | tick (info : Option RenderInfo)
  | work (i : Nat)
  | deliver
deriving DecidableEq

/-- One atomic step.  `tick` follows `_after_render`: when the dispatch
condition holds it sets `waiting_for_input_stream`, spawns a worker with
the computed `lines` target and counts the dispatch.  `work i` performs one
iteration of `while lines[0] > 0 and not source.eof()`: reading past the
end of the generator sets `_eof` and still schedules an (empty)
`insert_text`; otherwise the next generator item is exploded, its newline
count is subtracted from the worker's `lines` cell by `handle_content`,
and the chunk's characters are queued; a worker whose loop condition fails
exits.  `deliver` runs the oldest queued `insert_text`: it appends the
chunk to the buffer text and clears `waiting_for_input_stream`. -/
def sched_step (s : SchedState) (e : Ev) : SchedState :=
  match e with
  | .tick info =>
    match after_render_dispatch s.waiting s.eofFlag info s.forward_forever with
    | some target =>
      { s with waiting := true, workers := s.workers ++ [⟨target⟩],
               dispatched := s.dispatched + 1 }
    | none => s
  | .work i =>
    match s.workers[i]? with
    | none => s
    | some w =>
      if w.lines > 0 ∧ s.eofFlag = false then
        match s.gen with
        | [] =>
          { s with eofFlag := true, queue := s.queue ++ [[]] }
        | g :: rest =>
          let data := fragChars (explode_text_fragments g)
          { s with gen := rest,
                   workers := s.workers.set i ⟨w.lines - data.count '\n'⟩,
                   queue := s.queue ++ [data] }
      else
        { s with workers := s.workers.eraseIdx i }
  | .deliver =>
    match s.queue with
    | [] => s
    | d :: rest =>
      { s with text := s.text ++ d, queue := rest,
               delivered := s.delivered ++ [d], waiting := false }

/-- Run a trace of atomic events. -/
def sched_run (s : SchedState) (evs : List Ev) : SchedState :=
  evs.foldl sched_step s

/-- The full character output of a generator. -/
def genText (gen : List (List Fragment)) : List Char :=
  (gen.map fragChars).flatten

/-- The key-binding loop of `Pager.__init__` /
`run_pypager.keybinding` iterates over this string. -/
def digit_chars : List Char := "01234556789".toList

/-- The Python `for c in "01234556789"` loop variable is one shared
binding; each `_handle_arg` closure reads it at call time, after the
binding loop has finished, when it holds the string's final character. -/
def loop_var_final : Char := digit_chars.getLast (by decide)

/-- `KeyPressEvent.append_to_arg_count`: append the digit string to the
pending numeric argument. -/
def append_to_arg_count (arg : List Char) (data : List Char) : List Char :=
  arg ++ data

/-- `_handle_arg` as actually closed over: it appends the binding-loop
variable's value at call time, not the key that was pressed. -/
def handle_arg (arg : List Char) : List Char :=
  append_to_arg_count arg [loop_var_final]

/-- Dispatch a sequence of pressed keys through the digit bindings: a key
that is one of the bound digit characters triggers `_handle_arg`. -/
def press_digit_keys (keys : List Char) (arg : List Char) : List Char :=
  keys.foldl (fun a k => if k ∈ digit_chars then handle_arg a else a) arg

/-- Numeric value of the accumulated argument string (`int(arg)`). -/
def arg_value (arg : List Char) : Nat :=
  arg.foldl (fun n c => 10 * n + (c.toNat - 48)) 0

example : press_digit_keys ['1', '2'] [] = ['9', '9'] := by decide
example :
    (sched_run ⟨[[("", ['a'])], [("", ['b'])]], false, false, [], [], [], [], 0, false⟩
      [.tick (some ⟨0, 0, 1⟩), .work 0, .deliver, .tick (some ⟨1, 1, 1⟩)]).workers.length
      = 2 := by decide

/-! Helper lemmas. -/

theorem dict_get_dict_set_self [DecidableEq κ] (d : List (κ × α)) (k : κ) (v : α) :
    dict_get (dict_set d k v) k = some v := by
  induction d with
  | nil => simp [dict_set, dict_get]
  | cons kv rest ih =>
    by_cases h : kv.1 = k
    · simp [dict_set, dict_get, h]
    · simp [dict_set, dict_get, h, ih]

theorem list_remove_length_of_mem [DecidableEq α] (l : List α) (x : α) (hx : x ∈ l) :
    (list_remove l x).length + 1 = l.length := by
  induction l with
  | nil => cases hx
  | cons a rest ih =>
    by_cases h : a = x
    · simp [list_remove, h]
    · have hx2 : x ∈ rest := by
        cases hx with
        | head => exact absurd rfl h
        | tail _ hm => exact hm
      simp [list_remove, h, ih hx2]

theorem mem_of_list_get? (l : List α) (n : Nat) (x : α) (h : l.get? n = some x) : x ∈ l := by
  induction l generalizing n with
  | nil => cases h
  | cons a rest ih =>
    cases n with
    | zero =>
      simp only [List.get?, Option.some.injEq] at h
      exact h ▸ List.mem_cons_self _ _
    | succ m =>
      simp only [List.get?] at h
      exact List.mem_cons_of_mem a (ih m h)

theorem list_get?_none_iff (l : List α) (n : Nat) : l.get? n = none ↔ l.length ≤ n := by
  induction l generalizing n with
  | nil => simp
  | cons a rest ih =>
    cases n with
    | zero => simp [List.get?]
    | succ m => simp [List.get?, ih m]

theorem py_get_mem (l : List α) (i : Int) (x : α) (h : py_get l i = some x) : x ∈ l := by
  unfold py_get at h
  split at h
  · exact mem_of_list_get? _ _ _ h
  · split at h
    · exact mem_of_list_get? _ _ _ h
    · cases h

theorem py_get_of_valid (l : List α) (i : Int) (h0 : 0 ≤ i) (h1 : i < (l.length : Int)) :
    ∃ x, py_get l i = some x := by
  unfold py_get
  rw [if_pos h0]
  have hlt : i.toNat < l.length := by omega
  cases hg : l.get? i.toNat with
  | none => rw [list_get?_none_iff] at hg; omega
  | some x => exact ⟨x, rfl⟩

/-- The index of the registry is in range (the `SourceRegistry` validity
invariant of spec §3). -/
def valid_index (r : SourceContainer) : Prop :=
  0 ≤ r.current_source_index ∧ r.current_source_index < (r.sources.length : Int)

instance (r : SourceContainer) : Decidable (valid_index r) := by
  unfold valid_index; infer_instance

theorem current_source_of_valid (r : SourceContainer)
    (h0 : 0 ≤ r.current_source_index)
    (h1 : r.current_source_index < (r.sources.length : Int)) :
    ∃ s, r.current_source = .real s ∧ s ∈ r.sources := by
  obtain ⟨x, hx⟩ := py_get_of_valid r.sources r.current_source_index h0 h1
  exact ⟨x, by simp [SourceContainer.current_source, hx],
    py_get_mem r.sources r.current_source_index x hx⟩

/-! Claim theorems for the registry. -/

/-- Claim C2 (amended, counterexample `C2_counterexample`): calling
`remove_current_source` when exactly one source is registered leaves the
sources list, the current index and the source-info map unchanged and
appends exactly the status message "Can't remove the last buffer." (the
claim's quoted text "cannot remove the last buffer" does not match the
emitted message). -/
theorem C2_amended_remove_last (r : SourceContainer) (h : r.sources.length = 1) :
    r.remove_current_source = { r with messages := r.messages ++ [cant_remove_msg] } := by
  unfold SourceContainer.remove_current_source
  rw [if_neg (by omega)]

/-- Witness for `C2_amended_remove_last` on a singleton registry. -/
theorem C2_witness :
    SourceContainer.remove_current_source ⟨[7], 0, [], []⟩ = ⟨[7], 0, [], [cant_remove_msg]⟩ :=
  C2_amended_remove_last ⟨[7], 0, [], []⟩ (by decide)

/-- Claim C2 counterexample: the status message produced on the last buffer
is "Can't remove the last buffer.", not the claimed "cannot remove the last
buffer". -/
theorem C2_counterexample :
    (SourceContainer.remove_current_source ⟨[7], 0, [], []⟩).messages = [cant_remove_msg] ∧
    cant_remove_msg ≠ "cannot remove the last buffer" := by
  decide

/-- Claim C3 (amended, counterexample `C3_counterexample`): `add_source`
always leaves the current index valid, `focus_next_source` and
`focus_previous_source` preserve validity on every non-empty registry, and
`remove_current_source` preserves validity whenever the current index is
at least 1; when the current index is 0 and more than one source exists,
the index ends up one past the end of the remaining list (and
`current_source` falls back to the dummy source). -/
theorem C3_amended_index_validity (r : SourceContainer) (s : Nat) :
    valid_index (r.add_source s) ∧
    (r.sources ≠ [] →
      valid_index r.focus_next_source ∧ valid_index r.focus_previous_source) ∧
    (1 < r.sources.length → 1 ≤ r.current_source_index →
      r.current_source_index < (r.sources.length : Int) →
      valid_index r.remove_current_source) := by
  refine ⟨?_, ?_, ?_⟩
  · simp only [valid_index, SourceContainer.add_source, List.length_append,
      List.length_cons, List.length_nil]
    omega
  · intro hne
    have hpos : (0 : Int) < (r.sources.length : Int) := by
      have := List.length_pos.mpr hne
      omega
    constructor
    · exact ⟨Int.emod_nonneg _ (by omega), Int.emod_lt_of_pos _ hpos⟩
    · exact ⟨Int.emod_nonneg _ (by omega), Int.emod_lt_of_pos _ hpos⟩
  · intro hlen h1 h2
    obtain ⟨s0, hcur, hmem⟩ := current_source_of_valid r (by omega) h2
    have hrem := list_remove_length_of_mem r.sources s0 hmem
    unfold SourceContainer.remove_current_source
    rw [if_pos (by omega)]
    simp only [hcur, SourceContainer.focus_previous_source, valid_index]
    have hmod : (r.current_source_index - 1) % (r.sources.length : Int) =
        r.current_source_index - 1 :=
      Int.emod_eq_of_lt (by omega) (by omega)
    rw [hmod]
    constructor
    · omega
    · have : ((list_remove r.sources s0).length : Int) = (r.sources.length : Int) - 1 := by
        omega
      rw [this]
      omega

/-- Witness for `C3_amended_index_validity` on a two-source registry with
current index 1. -/
theorem C3_witness :
    valid_index (SourceContainer.add_source ⟨[1, 2], 1, [], []⟩ 3) ∧
    valid_index (SourceContainer.remove_current_source ⟨[1, 2], 1, [], []⟩) :=
  ⟨(C3_amended_index_validity ⟨[1, 2], 1, [], []⟩ 3).1,
    (C3_amended_index_validity ⟨[1, 2], 1, [], []⟩ 3).2.2 (by decide) (by decide) (by decide)⟩

/-- Claim C3 counterexample: on the registry `[1, 2]` with current index 0,
`remove_current_source` leaves index 1 pointing past the end of the
remaining one-element list. -/
theorem C3_counterexample :
    (SourceContainer.remove_current_source ⟨[1, 2], 0, [], []⟩).sources = [2] ∧
    (SourceContainer.remove_current_source ⟨[1, 2], 0, [], []⟩).current_source_index = 1 ∧
    ¬ valid_index (SourceContainer.remove_current_source ⟨[1, 2], 0, [], []⟩) := by
  decide

/-- Claim C6: when `FileSource` construction fails with an `IOError`,
`open_file` converts the error into a status message equal to the error
text and leaves the sources list, the source count, the current index and
the source-info map unchanged; the error does not propagate. -/
theorem C6_open_file_error (r : SourceContainer) (e : String) :
    (r.open_file (Except.error e)).sources = r.sources ∧
    (r.open_file (Except.error e)).sources.length = r.sources.length ∧
    (r.open_file (Except.error e)).current_source_index = r.current_source_index ∧
    (r.open_file (Except.error e)).source_info = r.source_info ∧
    (r.open_file (Except.error e)).messages = r.messages ++ [e] :=
  ⟨rfl, rfl, rfl, rfl, rfl⟩

/-- Claim C10: `current_source` is total — an index outside Python's
indexable range (at least the length, or below minus the length) yields
the dummy source rather than an exception — and `current_source_info` is
total: it returns the stored `SourceInfo` when the map has one for the
current source and otherwise a freshly constructed `SourceInfo` for
whatever `current_source` returned, instead of raising `KeyError`. -/
theorem C10_total (r : SourceContainer) :
    (((r.sources.length : Int) ≤ r.current_source_index ∨
        r.current_source_index < -(r.sources.length : Int)) →
      r.current_source = .dummy) ∧
    (r.current_source = .dummy → r.current_source_info = SourceInfo.init .dummy) ∧
    (∀ s, r.current_source = .real s → dict_get r.source_info s = none →
      r.current_source_info = SourceInfo.init (.real s)) ∧
    (∀ s info, r.current_source = .real s → dict_get r.source_info s = some info →
      r.current_source_info = info) := by
  refine ⟨?_, ?_, ?_, ?_⟩
  · intro h
    unfold SourceContainer.current_source py_get
    rcases h with h | h
    · have hnone : r.sources.get? r.current_source_index.toNat = none := by
        rw [List.get?_eq_none]
        omega
      rw [if_pos (by omega), hnone]
    · rw [if_neg (by omega), if_neg (by omega)]
  · intro h
    simp [SourceContainer.current_source_info, h]
  · intro s hs hn
    simp [SourceContainer.current_source_info, hs, hn]
  · intro s info hs hi
    simp [SourceContainer.current_source_info, hs, hi]

/-- Witness for `C10_total` on a one-source registry with the stale index
3: the current source is the dummy and the info is freshly constructed. -/
theorem C10_witness :
    SourceContainer.current_source ⟨[5], 3, [], []⟩ = .dummy ∧
    SourceContainer.current_source_info ⟨[5], 3, [], []⟩ = SourceInfo.init .dummy :=
  ⟨(C10_total ⟨[5], 3, [], []⟩).1 (Or.inl (by decide)),
    (C10_total ⟨[5], 3, [], []⟩).2.1
      ((C10_total ⟨[5], 3, [], []⟩).1 (Or.inl (by decide)))⟩


/-- Claim C7: `StringSource` and `FormattedTextSource` are one-shot:
`eof()` is false on a freshly constructed source; the first `read_chunk`
returns the entire content (as exploded fragments whose concatenated
characters equal the content) and flips `eof()` to true; on any source
whose `eof()` is already true, `read_chunk` returns the empty list and
leaves the source — hence `eof()` — unchanged. -/
theorem C7_one_shot (text : List Char) (ft : List Fragment) (nm nm2 : String) :
    (StringSource.init text nm).eof = false ∧
    fragChars ((StringSource.init text nm).read_chunk).1 = text ∧
    ((StringSource.init text nm).read_chunk).2.eof = true ∧
    (∀ s : StringSource, s.eof = true → s.read_chunk = ([], s)) ∧
    (FormattedTextSource.init ft nm2).eof = false ∧
    fragChars ((FormattedTextSource.init ft nm2).read_chunk).1 = fragChars ft ∧
    ((FormattedTextSource.init ft nm2).read_chunk).2.eof = true ∧
    (∀ s : FormattedTextSource, s.eof = true → s.read_chunk = ([], s)) := by
  refine ⟨rfl, ?_, rfl, ?_, rfl, ?_, rfl, ?_⟩
  · rw [show ((StringSource.init text nm).read_chunk).1 =
        explode_text_fragments [("", text)] from rfl, fragChars_explode]
    simp [fragChars]
  · intro s hs
    simp only [StringSource.eof] at hs
    simp [StringSource.read_chunk, hs]
  · rw [show ((FormattedTextSource.init ft nm2).read_chunk).1 =
        explode_text_fragments ft from rfl, fragChars_explode]
  · intro s hs
    simp only [FormattedTextSource.eof] at hs
    simp [FormattedTextSource.read_chunk, hs]

/-- Witness for `C7_one_shot`: a concrete string source read twice. -/
theorem C7_witness :
    (StringSource.init ['h', 'i'] "n").eof = false ∧
    StringSource.read_chunk { text := ['h', 'i'], name := "n", rdFlag := true } =
      ([], { text := ['h', 'i'], name := "n", rdFlag := true }) :=
  ⟨(C7_one_shot ['h', 'i'] [] "n" "m").1,
    (C7_one_shot ['h', 'i'] [] "n" "m").2.2.2.1 _ rfl⟩

/-- Claim C8: for a mark name other than the reserved `"^"` and `"$"`,
setting the mark at cursor `c` / scroll `s` and recalling it after any
intervening cursor/scroll movement that leaves the marks dictionary intact
restores exactly `c` and `s`; recalling a mark that was never set returns
the state unchanged (the `KeyError` is swallowed). -/
theorem C8_marks (si : SourceInfo) (m : String) (h1 : m ≠ "^") (h2 : m ≠ "$")
    (si2 : SourceInfo) (hmarks : si2.marks = (si.set_mark m).marks) :
    (si2.go_to_mark m).cursor_position = si.cursor_position ∧
    (si2.go_to_mark m).vertical_scroll = si.vertical_scroll ∧
    (∀ si3 : SourceInfo, dict_get si3.marks m = none → si3.go_to_mark m = si3) := by
  have hget : dict_get si2.marks m = some (si.cursor_position, si.vertical_scroll) := by
    rw [hmarks]
    exact dict_get_dict_set_self si.marks m _
  refine ⟨?_, ?_, ?_⟩
  · simp [SourceInfo.go_to_mark, h1, h2, hget]
  · simp [SourceInfo.go_to_mark, h1, h2, hget]
  · intro si3 hnone
    simp [SourceInfo.go_to_mark, h1, h2, hnone]

/-- Witness for `C8_marks`: mark `"a"` set at cursor 10 / scroll 2, cursor
and scroll then moved to 99 / 7, recall restores 10 / 2. -/
theorem C8_witness :
    (SourceInfo.go_to_mark
      { (SourceInfo.set_mark
          { source := .dummy, bufText := ['x'], cursor_position := 10,
            vertical_scroll := 2, marks := [], waiting_for_input_stream := false,
            wrap_lines := false } "a") with
        cursor_position := 99, vertical_scroll := 7 } "a").cursor_position = 10 :=
  (C8_marks
    { source := .dummy, bufText := ['x'], cursor_position := 10, vertical_scroll := 2,
      marks := [], waiting_for_input_stream := false, wrap_lines := false }
    "a" (by decide) (by decide)
    { (SourceInfo.set_mark
        { source := .dummy, bufText := ['x'], cursor_position := 10,
          vertical_scroll := 2, marks := [], waiting_for_input_stream := false,
          wrap_lines := false } "a") with
      cursor_position := 99, vertical_scroll := 7 } rfl).1

/-! Scheduler invariants. -/

theorem sched_step_conserves (s : SchedState) (e : Ev) :
    (sched_step s e).text ++ ((sched_step s e).queue.flatten ++
        genText (sched_step s e).gen) =
      s.text ++ (s.queue.flatten ++ genText s.gen) := by
  cases e with
  | tick info =>
    cases h : after_render_dispatch s.waiting s.eofFlag info s.forward_forever with
    | none => simp [sched_step, h]
    | some t => simp [sched_step, h]
  | work i =>
    cases hw : s.workers[i]? with
    | none => simp [sched_step, hw]
    | some w =>
      by_cases hc : w.lines > 0 ∧ s.eofFlag = false
      · cases hg : s.gen with
        | nil => simp [sched_step, hw, hc, hg]
        | cons g rest =>
          simp [sched_step, hw, hc, hg, genText, fragChars_explode, List.append_assoc]
      · simp [sched_step, hw, hc]
  | deliver =>
    cases hq : s.queue with
    | nil => simp [sched_step, hq]
    | cons d rest => simp [sched_step, hq, List.append_assoc]

theorem sched_run_conserves (s : SchedState) (evs : List Ev) :
    (sched_run s evs).text ++ ((sched_run s evs).queue.flatten ++
        genText (sched_run s evs).gen) =
      s.text ++ (s.queue.flatten ++ genText s.gen) := by
  induction evs generalizing s with
  | nil => rfl
  | cons e rest ih =>
    rw [show sched_run s (e :: rest) = sched_run (sched_step s e) rest from rfl,
      ih (sched_step s e), sched_step_conserves]

theorem sched_step_delivered (s : SchedState) (e : Ev)
    (h : s.text = s.delivered.flatten) :
    (sched_step s e).text = (sched_step s e).delivered.flatten := by
  cases e with
  | tick info =>
    cases hd : after_render_dispatch s.waiting s.eofFlag info s.forward_forever with
    | none => simpa [sched_step, hd] using h
    | some t => simpa [sched_step, hd] using h
  | work i =>
    cases hw : s.workers[i]? with
    | none => simpa [sched_step, hw] using h
    | some w =>
      by_cases hc : w.lines > 0 ∧ s.eofFlag = false
      · cases hg : s.gen with
        | nil => simpa [sched_step, hw, hc, hg] using h
        | cons g rest => simpa [sched_step, hw, hc, hg] using h
      · simpa [sched_step, hw, hc] using h
  | deliver =>
    cases hq : s.queue with
    | nil => simpa [sched_step, hq] using h
    | cons d rest => simp [sched_step, hq, h]

theorem sched_run_delivered (s : SchedState) (evs : List Ev)
    (h : s.text = s.delivered.flatten) :
    (sched_run s evs).text = (sched_run s evs).delivered.flatten := by
  induction evs generalizing s with
  | nil => exact h
  | cons e rest ih =>
    exact ih (sched_step s e) (sched_step_delivered s e h)

theorem sched_step_eof_gen (s : SchedState) (e : Ev)
    (h : s.eofFlag = true → s.gen = []) :
    (sched_step s e).eofFlag = true → (sched_step s e).gen = [] := by
  cases e with
  | tick info =>
    cases hd : after_render_dispatch s.waiting s.eofFlag info s.forward_forever with
    | none => simpa [sched_step, hd] using h
    | some t => simpa [sched_step, hd] using h
  | work i =>
    cases hw : s.workers[i]? with
    | none => simpa [sched_step, hw] using h
    | some w =>
      by_cases hc : w.lines > 0 ∧ s.eofFlag = false
      · cases hg : s.gen with
        | nil => simp [sched_step, hw, hc, hg]
        | cons g rest =>
          simp only [sched_step, hw, hc, hg]
          intro hcontra
          exact absurd hcontra (by simp [hc.2])
      · simpa [sched_step, hw, hc] using h
  | deliver =>
    cases hq : s.queue with
    | nil => simpa [sched_step, hq] using h
    | cons d rest => simpa [sched_step, hq] using h

theorem sched_run_eof_gen (s : SchedState) (evs : List Ev)
    (h : s.eofFlag = true → s.gen = []) :
    (sched_run s evs).eofFlag = true → (sched_run s evs).gen = [] := by
  induction evs generalizing s with
  | nil => exact h
  | cons e rest ih =>
    exact ih (sched_step s e) (sched_step_eof_gen s e h)

theorem sched_step_no_deliver (s : SchedState) (e : Ev) (hw : s.waiting = true)
    (hne : e ≠ Ev.deliver) :
    (sched_step s e).waiting = true ∧ (sched_step s e).dispatched = s.dispatched := by
  cases e with
  | tick info =>
    cases info with
    | none => exact ⟨hw, rfl⟩
    | some i =>
      have hd : after_render_dispatch true s.eofFlag (some i) s.forward_forever
          = none := by
        simp [after_render_dispatch]
      simp [sched_step, hw, hd]
  | work i =>
    cases hwk : s.workers[i]? with
    | none => simp [sched_step, hwk, hw]
    | some w =>
      by_cases hc : w.lines > 0 ∧ s.eofFlag = false
      · cases hg : s.gen with
        | nil => simp [sched_step, hwk, hc, hg, hw]
        | cons g rest => simp [sched_step, hwk, hc, hg, hw]
      · simp [sched_step, hwk, hc, hw]
  | deliver => exact absurd rfl hne

theorem sched_run_no_deliver (s : SchedState) (evs : List Ev) (hw : s.waiting = true)
    (hnd : ∀ e ∈ evs, e ≠ Ev.deliver) :
    (sched_run s evs).waiting = true ∧ (sched_run s evs).dispatched = s.dispatched := by
  induction evs generalizing s with
  | nil => exact ⟨hw, rfl⟩
  | cons e rest ih =>
    have h1 := sched_step_no_deliver s e hw (hnd e (List.mem_cons_self e rest))
    have h2 := ih (sched_step s e) h1.1 (fun x hx => hnd x (List.mem_cons_of_mem e hx))
    exact ⟨h2.1, h2.2.trans h1.2⟩

/-- Claim C1 (amended, counterexample `C1_counterexample`): after a render
tick dispatches a worker read task (which sets `waiting_for_input_stream`),
no later render tick dispatches a second task for that source as long as no
chunk from the handoff queue has been run on the render thread — the flag
stays set and the dispatch count is unchanged along any delivery-free
trace.  The claim's stronger guarantee ("until the first task has finished
delivering all of its chunks") fails, because every `insert_text` — not
only the task's last one — clears `waiting_for_input_stream`. -/
theorem C1_amended_single_dispatch (s : SchedState) (info : Option RenderInfo) (t : Int)
    (hd : after_render_dispatch s.waiting s.eofFlag info s.forward_forever = some t)
    (evs : List Ev) (hnd : ∀ e ∈ evs, e ≠ Ev.deliver) :
    (sched_run (sched_step s (Ev.tick info)) evs).waiting = true ∧
    (sched_run (sched_step s (Ev.tick info)) evs).dispatched = s.dispatched + 1 := by
  have hstep : sched_step s (Ev.tick info) =
      { s with waiting := true, workers := s.workers ++ [⟨t⟩],
               dispatched := s.dispatched + 1 } := by
    simp [sched_step, hd]
  rw [hstep]
  exact sched_run_no_deliver _ evs rfl hnd

/-- Witness for `C1_amended_single_dispatch`: after the dispatching tick, a
worker step and a further tick (no delivery in between) leave the flag set
and the dispatch count at one. -/
theorem C1_witness :
    (sched_run (sched_step
        ⟨[[("", ['a'])], [("", ['b'])]], false, false, [], [], [], [], 0, false⟩
        (Ev.tick (some ⟨0, 0, 1⟩)))
      [Ev.work 0, Ev.tick (some ⟨1, 1, 1⟩)]).waiting = true ∧
    (sched_run (sched_step
        ⟨[[("", ['a'])], [("", ['b'])]], false, false, [], [], [], [], 0, false⟩
        (Ev.tick (some ⟨0, 0, 1⟩)))
      [Ev.work 0, Ev.tick (some ⟨1, 1, 1⟩)]).dispatched = 0 + 1 :=
  C1_amended_single_dispatch
    ⟨[[("", ['a'])], [("", ['b'])]], false, false, [], [], [], [], 0, false⟩
    (some ⟨0, 0, 1⟩) 2 (by decide) [Ev.work 0, Ev.tick (some ⟨1, 1, 1⟩)] (by decide)

/-- Claim C1 counterexample: a generator source with two chunks, viewport
height 1.  A tick dispatches worker 1; worker 1 reads its first chunk
("a", no newline, so its target stays positive); the chunk is delivered,
which clears `waiting_for_input_stream`; the next tick then dispatches a
second worker while worker 1 is still in its read loop with a chunk still
unread — two read tasks are simultaneously in flight. -/
theorem C1_counterexample :
    (sched_run ⟨[[("", ['a'])], [("", ['b'])]], false, false, [], [], [], [], 0, false⟩
        [Ev.tick (some ⟨0, 0, 1⟩), Ev.work 0, Ev.deliver,
          Ev.tick (some ⟨1, 1, 1⟩)]).workers.length = 2 ∧
    (sched_run ⟨[[("", ['a'])], [("", ['b'])]], false, false, [], [], [], [], 0, false⟩
        [Ev.tick (some ⟨0, 0, 1⟩), Ev.work 0, Ev.deliver,
          Ev.tick (some ⟨1, 1, 1⟩)]).gen ≠ [] ∧
    (sched_run ⟨[[("", ['a'])], [("", ['b'])]], false, false, [], [], [], [], 0, false⟩
        [Ev.tick (some ⟨0, 0, 1⟩), Ev.work 0, Ev.deliver,
          Ev.tick (some ⟨1, 1, 1⟩)]).dispatched = 2 := by
  decide

/-- Claim C4: starting from an empty buffer with no pending deliveries, for
any interleaving of render ticks, worker iterations and deliveries, the
chunks appended to the buffer in delivery order concatenate exactly to the
buffer text; buffer text, queued-but-undelivered chunks and the unread
remainder of the generator always concatenate to the generator's full
output (no character duplicated or lost); and once the source reports eof
the buffer plus the pending queue is the complete generator output. -/
theorem C4_roundtrip (s0 : SchedState) (evs : List Ev)
    (h1 : s0.text = []) (h2 : s0.queue = []) (h3 : s0.delivered = [])
    (h4 : s0.eofFlag = false) :
    (sched_run s0 evs).delivered.flatten = (sched_run s0 evs).text ∧
    (sched_run s0 evs).text ++ ((sched_run s0 evs).queue.flatten ++
        genText (sched_run s0 evs).gen) = genText s0.gen ∧
    ((sched_run s0 evs).eofFlag = true →
      (sched_run s0 evs).text ++ (sched_run s0 evs).queue.flatten = genText s0.gen) := by
  have hdel := sched_run_delivered s0 evs (by rw [h1, h3]; rfl)
  have hcons := sched_run_conserves s0 evs
  rw [h1, h2] at hcons
  simp only [List.flatten_nil, List.nil_append] at hcons
  have heof := sched_run_eof_gen s0 evs (by intro hh; rw [h4] at hh; cases hh)
  refine ⟨hdel.symm, hcons, ?_⟩
  intro hh
  rw [heof hh] at hcons
  simpa [genText] using hcons

/-- Witness for `C4_roundtrip`: one chunk "a\nb" read and delivered; the
delivery log concatenates to the buffer text. -/
theorem C4_witness :
    (sched_run ⟨[[("x", ['a', '\n', 'b'])]], false, false, [], [], [], [], 0, false⟩
        [Ev.tick (some ⟨0, 0, 1⟩), Ev.work 0, Ev.deliver, Ev.work 0,
          Ev.deliver]).delivered.flatten =
      (sched_run ⟨[[("x", ['a', '\n', 'b'])]], false, false, [], [], [], [], 0, false⟩
        [Ev.tick (some ⟨0, 0, 1⟩), Ev.work 0, Ev.deliver, Ev.work 0,
          Ev.deliver]).text :=
  (C4_roundtrip ⟨[[("x", ['a', '\n', 'b'])]], false, false, [], [], [], [], 0, false⟩
    [Ev.tick (some ⟨0, 0, 1⟩), Ev.work 0, Ev.deliver, Ev.work 0, Ev.deliver]
    rfl rfl rfl rfl).1

/-- Claim C5 (amended, counterexample `C5_counterexample`): whenever
`_after_render` dispatches a worker task, the number of additional lines it
asks for equals `2 * viewport_height - slack`; this number is at least 1
when the dispatch is triggered by the slack condition
(`slack < 2 * viewport_height`), but when the dispatch happens only because
follow mode forces it the target can be zero or negative. -/
theorem C5_amended_dispatch_target (w e : Bool) (i : RenderInfo) (f : Bool) (t : Int)
    (h : after_render_dispatch w e (some i) f = some t) :
    t = (i.window_height : Int) * 2 - lines_below_bottom i ∧
    (lines_below_bottom i < (i.window_height : Int) * 2 → 1 ≤ t) := by
  simp only [after_render_dispatch] at h
  split at h
  · split at h
    · injection h with h
      exact ⟨h.symm, fun hlt => by omega⟩
    · cases h
  · cases h

/-- Witness for `C5_amended_dispatch_target`: height 1, empty buffer,
target 2. -/
theorem C5_witness :
    (2 : Int) = ((1 : Nat) : Int) * 2 - lines_below_bottom ⟨0, 0, 1⟩ ∧
    (lines_below_bottom ⟨0, 0, 1⟩ < ((1 : Nat) : Int) * 2 → 1 ≤ (2 : Int)) :=
  C5_amended_dispatch_target false false ⟨0, 0, 1⟩ false 2 (by decide)

/-- Claim C5 counterexample: viewport height 1, two loaded lines below the
bottom (slack 2), follow mode on: the dispatch happens (forced by follow
mode) with target `2 * 1 - 2 = 0`, which is not at least 1 — the worker
loop then exits without reading. -/
theorem C5_counterexample :
    after_render_dispatch false false (some ⟨2, 0, 1⟩) true = some 0 ∧
    ¬ (1 ≤ (0 : Int)) := by
  decide

/-- Claim C9 (code bug): the binding loop `for c in "01234556789"` creates
closures that read the loop variable at call time, after the loop has
finished, so every digit key's `_handle_arg` appends the final character
"9" rather than the pressed digit: pressing "1" then "2" accumulates the
argument "99" (repeat count 99), not "12" (repeat count 12) as the spec's
digit-accumulation behaviour requires. -/
theorem C9_digit_bindings_append_final_digit :
    press_digit_keys ['1', '2'] [] = ['9', '9'] ∧
    arg_value (press_digit_keys ['1', '2'] []) = 99 ∧
    press_digit_keys ['1', '2'] [] ≠ ['1', '2'] ∧
    loop_var_final = '9' := by
  decide
